import Mathlib

/-
Verification development for the content-marketing pipeline repository.

The repository chains four LLM "stage agents" (topic research, blog writer,
social posts, scheduler) behind a linear orchestrator (crew/crew.py).  Each
agent formats a prompt, invokes the model, parses the response as JSON and
falls back to deterministic records when parsing fails or the call faults.

We embed the JSON-shaped records as the inductive `JVal`, Python strings as
`List Char` where positional string surgery matters, the external model call
as an oracle value of type `LLMResult`, the external `datetime` collaborator
as a `DateEnv` of formatting functions, and the external `json.loads` as a
parameter `p : Parser` (instantiated with the executable `jsonParse` for
concrete runs).  File writes and stdout prints are external collaborators and
are not modelled (they do not affect any returned record).
-/

namespace ContentPipeline

/-- Python-style text handled as an explicit character list, so that the
`str.find` / slice logic of the extraction step can be stated positionally. -/
abbrev PyStr := List Char

/-- JSON-like values: the records passed between pipeline stages.
Numbers are integers only; the repository never produces or consumes
fractional JSON numbers on any path a claim touches. -/
inductive JVal where
  | null
  | bool (b : Bool)
  | num (n : Int)
  | str (s : String)
  | arr (xs : List JVal)
  | obj (fs : List (String × JVal))
  deriving Repr

/-- Shorthand for a JSON string value. -/
def jstr (s : String) : JVal := JVal.str s

/-- First binding of a key in an association list (Python dicts have unique
keys, so first = only). -/
def lookupKey : List (String × JVal) → String → Option JVal
  | [], _ => none
  | (k, v) :: fs, key => if k = key then some v else lookupKey fs key

/-- Python dict assignment `d[k] = v`: update the value in place when the key
exists (keeping its position), otherwise append the new binding. -/
def setKey : List (String × JVal) → String → JVal → List (String × JVal)
  | [], key, v => [(key, v)]
  | (k, w) :: fs, key, v =>
    if k = key then (k, v) :: fs else (k, w) :: setKey fs key v

/-- Drop every binding of a key. -/
def eraseKey : List (String × JVal) → String → List (String × JVal)
  | [], _ => []
  | (k, v) :: fs, key =>
    if k = key then eraseKey fs key else (k, v) :: eraseKey fs key

/-- `k in d` for a record value; `false` on non-records. -/
def hasKeyJ (v : JVal) (key : String) : Bool :=
  match v with
  | JVal.obj fs => (lookupKey fs key).isSome
  | _ => false

/-- Python truthiness of a JSON value (`bool(x)`). -/
def pyTruthy : JVal → Bool
  | JVal.null => false
  | JVal.bool b => b
  | JVal.num n => n ≠ 0
  | JVal.str s => s ≠ ""
  | JVal.arr xs => !xs.isEmpty
  | JVal.obj fs => !fs.isEmpty

/-- Python `str()` / `repr()` rendering of a JSON value, with bounded depth.
The depth bound is a modelling fuel: every value the repository builds is of
tiny depth, and the fuel is never exhausted on any input a claim touches.
Apostrophes are written with their hex escape. -/
def pyReprF : Nat → JVal → String
  | 0, _ => ""
  | _ + 1, JVal.null => "None"
  | _ + 1, JVal.bool true => "True"
  | _ + 1, JVal.bool false => "False"
  | _ + 1, JVal.num n => toString n
  | _ + 1, JVal.str s => "\x27" ++ s ++ "\x27"
  | fuel + 1, JVal.arr xs =>
    "[" ++ String.intercalate ", " (xs.map (pyReprF fuel)) ++ "]"
  | fuel + 1, JVal.obj fs =>
    "\x7b" ++
      String.intercalate ", "
        (fs.map (fun kv => "\x27" ++ kv.1 ++ "\x27: " ++ pyReprF fuel kv.2)) ++
      "\x7d"

/-- Python `str(x)` as used by f-string interpolation: strings render bare,
everything else as its repr. -/
def pyStr (v : JVal) : String :=
  match v with
  | JVal.str s => s
  | _ => pyReprF 1000 v

/-- Result of the external model call: the response text, or the message of a
raised transport/runtime fault. -/
inductive LLMResult where
  | ok (content : String)
  | fault (msg : String)

/-- The external `json.loads` collaborator: `none` models a raised
`json.JSONDecodeError`. -/
abbrev Parser := PyStr → Option JVal

/-- The external `datetime` collaborator, seen through the only operations the
scheduler performs on it: `ymd k` is `(start_date + timedelta(days=k))`
formatted `%Y-%m-%d`, `weekday k` the same date formatted `%A`, and `nowIso`
is `datetime.now().isoformat()`. -/
structure DateEnv where
  ymd : Nat → String
  weekday : Nat → String
  nowIso : String

/- ------------------------------------------------------------------ -/
/- Python-semantics helpers that can raise (modelled with `Except`).    -/
/- ------------------------------------------------------------------ -/

/-- `d.get(key, default)`: raises `AttributeError` on non-dicts.  (Python's
message names the concrete type; the model uses one fixed message, which no
claim inspects.) -/
def pyGet (v : JVal) (key : String) (dflt : JVal) : Except String JVal :=
  match v with
  | JVal.obj fs => Except.ok ((lookupKey fs key).getD dflt)
  | _ => Except.error "AttributeError: object has no attribute get"

/-- `len(x)` for sized values; raises `TypeError` otherwise. -/
def pyLen (v : JVal) : Except String Nat :=
  match v with
  | JVal.arr xs => Except.ok xs.length
  | JVal.str s => Except.ok s.length
  | JVal.obj fs => Except.ok fs.length
  | _ => Except.error "TypeError: object has no len"

/-- Iterating a value as a Python `for` loop or slice does: lists yield their
elements, strings their one-character substrings, dicts their keys; other
values raise `TypeError`. -/
def pyIterList (v : JVal) : Except String (List JVal) :=
  match v with
  | JVal.arr xs => Except.ok xs
  | JVal.str s => Except.ok (s.data.map (fun ch => jstr (String.singleton ch)))
  | JVal.obj fs => Except.ok (fs.map (fun kv => jstr kv.1))
  | _ => Except.error "TypeError: object is not iterable"

/-- The underlying strings of a list of string values, when all are strings. -/
def asStrList : List JVal → Option (List String)
  | [] => some []
  | JVal.str s :: rest => (asStrList rest).map (s :: ·)
  | _ => none

/-- `sep.join(xs)`: every element must be a string, else `TypeError`. -/
def pyJoinStrs (sep : String) (xs : List JVal) : Except String String :=
  match asStrList xs with
  | some ss => Except.ok (String.intercalate sep ss)
  | none => Except.error "TypeError: expected str instance"

/-- `x + y` for two sequence values (list or str concatenation); `TypeError`
otherwise. -/
def pyConcat (a b : JVal) : Except String JVal :=
  match a, b with
  | JVal.arr xs, JVal.arr ys => Except.ok (JVal.arr (xs ++ ys))
  | JVal.str s, JVal.str t => Except.ok (jstr (s ++ t))
  | _, _ => Except.error "TypeError: unsupported operand types"

/-- `xs[0]` on a (truthy, hence non-empty) sequence. -/
def pyIndex0 (v : JVal) : Except String JVal :=
  match v with
  | JVal.arr (x :: _) => Except.ok x
  | JVal.str s =>
    match s.data with
    | c :: _ => Except.ok (jstr (String.singleton c))
    | [] => Except.error "IndexError: string index out of range"
  | JVal.arr [] => Except.error "IndexError: list index out of range"
  | _ => Except.error "TypeError: object is not subscriptable"

/-- `"error" in x` as the orchestrator's stage check evaluates it: key lookup
for dicts, membership for lists, substring test for strings, `TypeError`
otherwise. -/
def pyContainsError (v : JVal) : Except String Bool :=
  match v with
  | JVal.obj fs => Except.ok (lookupKey fs "error").isSome
  | JVal.arr xs => Except.ok (xs.any (fun x => match x with
      | JVal.str s => s = "error"
      | _ => false))
  | JVal.str s => Except.ok (decide ((s.splitOn "error").length > 1))
  | _ => Except.error "TypeError: argument is not iterable"

/- ------------------------------------------------------------------ -/
/- The structured-response extraction step (research & writer agents).  -/
/- ------------------------------------------------------------------ -/

/-- Does `needle` occur at the head of `hay`? -/
def listStartsWith : PyStr → PyStr → Bool
  | [], _ => true
  | _ :: _, [] => false
  | n :: ns, h :: hs => n = h && listStartsWith ns hs

/-- Index of the first occurrence of `needle` in `hay` (Python `str.find`
without the `-1` encoding). -/
def findIdx (needle : PyStr) : PyStr → Option Nat
  | [] => if needle = [] then some 0 else none
  | c :: cs =>
    if listStartsWith needle (c :: cs) then some 0
    else (findIdx needle cs).map (· + 1)

/-- Python `hay.find(needle, start)` (again `none` in place of `-1`). -/
def findIdxFrom (needle hay : PyStr) (start : Nat) : Option Nat :=
  (findIdx needle (hay.drop start)).map (· + start)

/-- `needle in hay` for strings. -/
def containsSeq (needle hay : PyStr) : Bool := (findIdx needle hay).isSome

/-- Characters removed by Python `str.strip()`. -/
def pySpace (c : Char) : Bool :=
  c = ' ' || c = '\t' || c = '\n' || c = '\x0d' || c = '\x0b' || c = '\x0c'

/-- Python `str.strip()`. -/
def pyStrip (l : PyStr) : PyStr :=
  ((l.dropWhile pySpace).reverse.dropWhile pySpace).reverse

/-- The opening markers looked for by the agents. -/
def jsonFence : PyStr := "```json".data

/-- The generic fence marker. -/
def fenceSeq : PyStr := "```".data

/-- The JSON-extraction preprocessing shared verbatim by the research and
writer agents:

```
if "```json" in content:
    start = content.find("```json") + 7
    end = content.find("```", start)
    content = content[start:end].strip()
elif "```" in content:
    start = content.find("```") + 3
    end = content.find("```", start)
    content = content[start:end].strip()
```

When no closing fence exists, `content.find` returns `-1` and the slice
`content[start:-1]` keeps everything from `start` up to but *excluding the
final character*; `(c.drop start).dropLast` is exactly that slice. -/
def extractContent (c : PyStr) : PyStr :=
  match findIdx jsonFence c with
  | some i =>
    let start := i + 7
    match findIdxFrom fenceSeq c start with
    | some e => pyStrip ((c.take e).drop start)
    | none => pyStrip ((c.drop start).dropLast)
  | none =>
    match findIdx fenceSeq c with
    | some i =>
      let start := i + 3
      match findIdxFrom fenceSeq c start with
      | some e => pyStrip ((c.take e).drop start)
      | none => pyStrip ((c.drop start).dropLast)
    | none => c

/-- The Structured-Response Extractor of the spec: locate the payload and
parse it; on parse failure return the original raw text as the extraction
failure (`Except.error`). -/
def extractJson (p : Parser) (c : PyStr) : Except PyStr JVal :=
  match p (extractContent c) with
  | some v => Except.ok v
  | none => Except.error c

/- ------------------------------------------------------------------ -/
/- An executable JSON parser used to instantiate the `json.loads`       -/
/- collaborator on concrete inputs (objects/arrays/strings/integers/    -/
/- booleans/null; fractional numbers are rejected, and no claim         -/
/- exercises them).                                                     -/
/- ------------------------------------------------------------------ -/

/-- Skip JSON whitespace. -/
def jsonWs : PyStr → PyStr
  | [] => []
  | c :: cs => if c = ' ' || c = '\t' || c = '\n' || c = '\x0d' then jsonWs cs else c :: cs

/-- Parse the body of a JSON string literal after the opening quote. -/
def jsonStrBody : PyStr → Option (String × PyStr)
  | [] => none
  | '"' :: rest => some ("", rest)
  | '\\' :: e :: rest =>
    match (match e with
           | '"' => some '"'
           | '\\' => some '\\'
           | '/' => some '/'
           | 'n' => some '\n'
           | 't' => some '\t'
           | 'r' => some '\x0d'
           | 'b' => some '\x08'
           | 'f' => some '\x0c'
           | _ => none) with
    | some ch =>
      (jsonStrBody rest).map
        (fun sv : String × PyStr => (String.singleton ch ++ sv.1, sv.2))
    | none => none
  | '\\' :: [] => none
  | c :: rest => (jsonStrBody rest).map (fun sv => (String.singleton c ++ sv.1, sv.2))

/-- Parse an unsigned decimal integer. -/
def jsonDigits : PyStr → Option (Nat × PyStr)
  | [] => none
  | c :: cs =>
    if c.isDigit then
      match jsonDigits cs with
      | some (n, rest) =>
        some ((c.toNat - '0'.toNat) * (10 ^ (cs.length - rest.length)) + n, rest)
      | none => some (c.toNat - '0'.toNat, cs)
    else none

mutual

/-- Parse one JSON value (fuel-bounded recursion). -/
def jsonVal : Nat → PyStr → Option (JVal × PyStr)
  | 0, _ => none
  | _ + 1, [] => none
  | fuel + 1, c :: cs =>
    if c = '"' then
      (jsonStrBody cs).map (fun sv => (jstr sv.1, sv.2))
    else if c = '-' then
      (jsonDigits cs).map (fun nr => (JVal.num (-(Int.ofNat nr.1)), nr.2))
    else if c.isDigit then
      (jsonDigits (c :: cs)).map (fun nr => (JVal.num (Int.ofNat nr.1), nr.2))
    else if c = 't' then
      if listStartsWith "rue".data cs then some (JVal.bool true, cs.drop 3) else none
    else if c = 'f' then
      if listStartsWith "alse".data cs then some (JVal.bool false, cs.drop 4) else none
    else if c = 'n' then
      if listStartsWith "ull".data cs then some (JVal.null, cs.drop 3) else none
    else if c = '[' then
      match jsonWs cs with
      | ']' :: rest => some (JVal.arr [], rest)
      | cs' => (jsonArrItems fuel cs').map (fun ar => (JVal.arr ar.1, ar.2))
    else if c = '\x7b' then
      match jsonWs cs with
      | '\x7d' :: rest => some (JVal.obj [], rest)
      | cs' => (jsonObjItems fuel cs').map (fun fr => (JVal.obj fr.1, fr.2))
    else none

/-- Parse comma-separated array items up to the closing bracket. -/
def jsonArrItems : Nat → PyStr → Option (List JVal × PyStr)
  | 0, _ => none
  | fuel + 1, s =>
    match jsonVal fuel s with
    | none => none
    | some (v, rest) =>
      match jsonWs rest with
      | ']' :: rest' => some ([v], rest')
      | ',' :: rest' =>
        (jsonArrItems fuel (jsonWs rest')).map (fun ar => (v :: ar.1, ar.2))
      | _ => none

/-- Parse comma-separated `"key": value` members up to the closing brace.
Duplicate keys overwrite in place, as Python dicts do. -/
def jsonObjItems : Nat → PyStr → Option (List (String × JVal) × PyStr)
  | 0, _ => none
  | fuel + 1, s =>
    match s with
    | '"' :: cs =>
      match jsonStrBody cs with
      | none => none
      | some (key, rest) =>
        match jsonWs rest with
        | ':' :: rest' =>
          match jsonVal fuel (jsonWs rest') with
          | none => none
          | some (v, rest'') =>
            match jsonWs rest'' with
            | '\x7d' :: rest3 => some ([(key, v)], rest3)
            | ',' :: rest3 =>
              (jsonObjItems fuel (jsonWs rest3)).map
                (fun fr =>
                  (match lookupKey fr.1 key with
                   | some v' => (key, v') :: eraseKey fr.1 key
                   | none => (key, v) :: fr.1,
                   fr.2))
            | _ => none
        | _ => none
    | _ => none

end

/-- `json.loads`: parse one value and require only whitespace to remain. -/
def jsonParse (c : PyStr) : Option JVal :=
  match jsonVal (c.length + 1) (jsonWs c) with
  | some (v, rest) => if jsonWs rest = [] then some v else none
  | none => none

/- ------------------------------------------------------------------ -/
/- Topic Research Agent (agents/topic_research_agent.py).              -/
/- ------------------------------------------------------------------ -/

/-- The record returned by `research_topics` when the model call raises. -/
def researchErrorRecord (e : String) : JVal :=
  JVal.obj [
    ("trending_topics", JVal.arr []),
    ("market_insights", jstr ("Error occurred during research: " ++ e)),
    ("recommended_focus", jstr "Please check API configuration"),
    ("error", jstr e)]

/-- The enhanced fallback used when the raw response mentions the AI /
digital-transformation topic by name. -/
def researchFallbackSpecial : JVal :=
  JVal.obj [
    ("trending_topics", JVal.arr [JVal.obj [
      ("title", jstr "The Role of AI in Driving Digital Transformation"),
      ("trending_reason", jstr "Businesses are increasingly using AI to accelerate their digital transformation efforts"),
      ("target_audience", jstr "Business leaders, IT professionals, digital transformation strategists"),
      ("content_angles", JVal.arr [jstr "AI implementation strategies", jstr "Digital transformation best practices", jstr "ROI of AI in business"]),
      ("seo_score", JVal.num 9),
      ("urgency_level", jstr "high")]]),
    ("market_insights", jstr "High interest in AI-driven business transformation and automation"),
    ("recommended_focus", jstr "Focus on AI in Digital Transformation due to high market demand")]

/-- The final parse-failure fallback of the research agent. -/
def researchFallbackFinal : JVal :=
  JVal.obj [
    ("trending_topics", JVal.arr [JVal.obj [
      ("title", jstr "AI and Digital Transformation in Modern Business"),
      ("trending_reason", jstr "Growing adoption of AI technologies in business operations"),
      ("target_audience", jstr "Business professionals and decision makers"),
      ("content_angles", JVal.arr [jstr "AI implementation", jstr "Business automation", jstr "Digital strategy"]),
      ("seo_score", JVal.num 8),
      ("urgency_level", jstr "high")]]),
    ("market_insights", jstr "Strong market interest in AI and automation solutions"),
    ("recommended_focus", jstr "AI and digital transformation topics show high engagement potential")]

/-- `TopicResearchAgent.research_topics`.  Seed keywords and industry context
only shape the prompt (which does not influence the returned record given the
response oracle), so they are carried but unused.  On a cleanly parsed
response the parsed value is returned unmodified, whatever its shape. -/
def research_topics (p : Parser) (_seedKeywords : List String)
    (_industryContext : String) (resp : LLMResult) : JVal :=
  match resp with
  | LLMResult.fault e => researchErrorRecord e
  | LLMResult.ok content =>
    match p (extractContent content.data) with
    | some result => result
    | none =>
      if containsSeq "AI in Driving Digital Transformation".data content.data
      then researchFallbackSpecial
      else researchFallbackFinal

/- ------------------------------------------------------------------ -/
/- Blog Writer Agent (agents/blog_writer_agent.py).                    -/
/- ------------------------------------------------------------------ -/

/-- The writer prompt up to (excluding) the word-count line. -/
def blogPromptPre (topicTitle : String) : String :=
  "\n            Write a compelling blog article with the following specifications:\n            \n            Topic: "
    ++ topicTitle ++ "\n            "

/-- The writer prompt after the word-count line, including the literal JSON
template (which repeats the clamped word count). -/
def blogPromptPost (targetAudience brandVoice anglesStr : String) (wordCount : Int) : String :=
  "\n            Target audience: " ++ targetAudience
    ++ "\n            Brand voice: " ++ brandVoice
    ++ "\n            Content angles to include: " ++ anglesStr
    ++ "\n            \n            Structure the article with:\n            1. Engaging headline\n            2. Hook opening paragraph\n            3. 3-4 main sections with subheadings\n            4. Practical insights and actionable tips\n            5. Strong conclusion with call-to-action\n            \n            Make the content:\n            - Informative and valuable\n            - Engaging and well-structured\n            - SEO-friendly with natural keyword integration\n            - Actionable with clear takeaways\n            \n            Return the response in JSON format:\n            \x7b\x7b\n                \"headline\": \"Compelling Blog Headline\",\n                \"meta_description\": \"SEO meta description (150-160 chars)\",\n                \"article_content\": \"Full article content in markdown format\",\n                \"word_count\": "
    ++ toString wordCount
    ++ ",\n                \"key_takeaways\": [\"takeaway1\", \"takeaway2\", \"takeaway3\"],\n                \"suggested_tags\": [\"tag1\", \"tag2\", \"tag3\"],\n                \"reading_time\": \"5 min read\",\n                \"call_to_action\": \"Specific CTA text\"\n            \x7d\x7d\n            "

/-- The full writer prompt: the f-string is a concatenation whose middle
segment carries the (already clamped) word count. -/
def blogPrompt (topicTitle : String) (wordCount : Int)
    (targetAudience brandVoice anglesStr : String) : String :=
  blogPromptPre topicTitle
    ++ ("Target word count: " ++ toString wordCount ++ " words")
    ++ blogPromptPost targetAudience brandVoice anglesStr wordCount

/-- The input reads performed by `write_blog_article` before the model call:
`topic_data.get` (raises on non-dicts) and the `", ".join` of content angles
(raises on non-string elements). -/
def writeBlogPre (topicData : JVal) : Except String (JVal × JVal × String) := do
  let topicTitle ← pyGet topicData "title" (jstr "Trending Industry Topic")
  let contentAngles ← pyGet topicData "content_angles" (JVal.arr [])
  let targetAudience ← pyGet topicData "target_audience" (jstr "business professionals")
  let anglesStr ←
    if pyTruthy contentAngles then do
      let xs ← pyIterList contentAngles
      pyJoinStrs ", " xs
    else pure "industry insights, practical tips"
  pure (topicTitle, targetAudience, anglesStr)

/-- Parse-failure fallback of the writer: the raw response text is salvaged. -/
def blogFallback (topicTitle targetAudience : JVal) (content : String)
    (wordCount : Int) : JVal :=
  JVal.obj [
    ("headline", topicTitle),
    ("meta_description", jstr ("Learn about " ++ pyStr topicTitle ++ " and its impact on " ++ pyStr targetAudience)),
    ("article_content", jstr content),
    ("word_count", JVal.num wordCount),
    ("key_takeaways", JVal.arr [jstr "Manual extraction needed"]),
    ("suggested_tags", JVal.arr [jstr "content", jstr "marketing", jstr "business"]),
    ("reading_time", jstr "5 min read"),
    ("call_to_action", jstr "Learn more about our services"),
    ("parsing_note", jstr "Raw content provided due to JSON parsing issue")]

/-- Error record of the writer (model call raised, or a runtime error while
validating the parsed record). -/
def blogErrorRecord (e : String) : JVal :=
  JVal.obj [
    ("headline", jstr "Content Generation Error"),
    ("meta_description", jstr "An error occurred during content generation"),
    ("article_content", jstr ("Error generating blog content: " ++ e)),
    ("word_count", JVal.num 0),
    ("key_takeaways", JVal.arr [jstr "Check API configuration and try again"]),
    ("suggested_tags", JVal.arr [jstr "error"]),
    ("reading_time", jstr "0 min read"),
    ("call_to_action", jstr "Please contact support"),
    ("error", jstr e)]

/-- Post-parse validation of the writer: backfill falsy `headline`,
`article_content` and `reading_time`; `reading_time` is derived from
`word_count // 200` (a `TypeError` on non-integers propagates to the outer
handler; Python booleans floor-divide as 0/1). -/
def blogEnhance (result : JVal) (topicTitle : JVal) (wordCount : Int) :
    Except String JVal :=
  match result with
  | JVal.obj fs =>
    let fs1 := if pyTruthy ((lookupKey fs "headline").getD JVal.null) then fs
               else setKey fs "headline" topicTitle
    let fs2 := if pyTruthy ((lookupKey fs1 "article_content").getD JVal.null) then fs1
               else setKey fs1 "article_content" (jstr "Content generation failed. Please try again.")
    if pyTruthy ((lookupKey fs2 "reading_time").getD JVal.null) then
      Except.ok (JVal.obj fs2)
    else
      match (lookupKey fs2 "word_count").getD (JVal.num wordCount) with
      | JVal.num n =>
        Except.ok (JVal.obj (setKey fs2 "reading_time"
          (jstr (toString (max 1 (Int.fdiv n 200)) ++ " min read"))))
      | JVal.bool b =>
        Except.ok (JVal.obj (setKey fs2 "reading_time"
          (jstr (toString (max 1 (Int.fdiv (if b then 1 else 0) 200)) ++ " min read"))))
      | _ => Except.error "TypeError: unsupported operand types for floor division"
  | _ => Except.error "AttributeError: object has no attribute get"

/-- `BlogWriterAgent.write_blog_article`. -/
def write_blog_article (p : Parser) (topicData : JVal) (targetWordCount : Int)
    (brandVoice : String) (resp : LLMResult) : JVal :=
  let wordCount := max 300 (min 600 targetWordCount)
  match writeBlogPre topicData with
  | Except.error e => blogErrorRecord e
  | Except.ok (topicTitle, targetAudience, anglesStr) =>
    let _prompt := blogPrompt (pyStr topicTitle) wordCount (pyStr targetAudience)
                     brandVoice anglesStr
    match resp with
    | LLMResult.fault e => blogErrorRecord e
    | LLMResult.ok content =>
      match p (extractContent content.data) with
      | some result =>
        match blogEnhance result topicTitle wordCount with
        | Except.ok v => v
        | Except.error e => blogErrorRecord e
      | none => blogFallback topicTitle targetAudience content wordCount

/- ------------------------------------------------------------------ -/
/- Social Post Agent (agents/social_post_agent.py).                    -/
/- ------------------------------------------------------------------ -/

/-- Error record of `generate_linkedin_posts`. -/
def linkedinErrorRecord (e : String) : JVal :=
  JVal.obj [
    ("linkedin_posts", JVal.arr [JVal.obj [
      ("post_content", jstr ("Error generating LinkedIn content: " ++ e)),
      ("character_count", JVal.num 0),
      ("hashtags", JVal.arr [jstr "#error"]),
      ("post_type", jstr "error"),
      ("engagement_prediction", jstr "none"),
      ("call_to_action", jstr "Please try again"),
      ("posting_tip", jstr "Check API configuration")]]),
    ("content_themes", JVal.arr [jstr "error"]),
    ("overall_strategy", jstr "Fix configuration and retry"),
    ("error", jstr e)]

/-- Parse-failure fallback of `generate_linkedin_posts`: the first 1000
characters of the raw response become the single post. -/
def linkedinFallback (content : String) : JVal :=
  JVal.obj [
    ("linkedin_posts", JVal.arr [JVal.obj [
      ("post_content", jstr (content.take 1000)),
      ("character_count", JVal.num (content.take 1000).length),
      ("hashtags", JVal.arr [jstr "#contentmarketing", jstr "#business", jstr "#insights"]),
      ("post_type", jstr "general"),
      ("engagement_prediction", jstr "medium"),
      ("call_to_action", jstr "What do you think?"),
      ("posting_tip", jstr "Review and edit before posting")]]),
    ("content_themes", JVal.arr [jstr "business insights"]),
    ("overall_strategy", jstr "Manual review recommended due to parsing issue"),
    ("parsing_note", jstr "Raw content provided")]

/-- The backfill post used when a parsed response lacks `linkedin_posts`.
(The source file stores its bullet and rocket glyphs as mojibake byte
sequences; they are reproduced verbatim.) -/
def defaultLinkedinPost (headline : JVal) (takeawaysStr : String) : JVal :=
  JVal.obj [
    ("post_content", jstr ("ðŸš€ Just published: " ++ pyStr headline ++ "\n\n" ++ takeawaysStr ++ "\n\nWhat are your thoughts?")),
    ("character_count", JVal.num 200),
    ("hashtags", JVal.arr [jstr "#contentmarketing", jstr "#business"]),
    ("post_type", jstr "promotional"),
    ("engagement_prediction", jstr "medium"),
    ("call_to_action", jstr "Share your thoughts below"),
    ("posting_tip", jstr "Post during business hours for better reach")]

/-- Input reads of `generate_linkedin_posts` before the model call: builds
the 300-character content preview (string-only concatenation, `TypeError`
otherwise) and the bullet list of the first three takeaways. -/
def linkedinPre (blogData : JVal) : Except String (JVal × String) := do
  let headline ← pyGet blogData "headline" (jstr "Industry Insights")
  let keyTakeaways ← pyGet blogData "key_takeaways" (JVal.arr [])
  let articleContent ← pyGet blogData "article_content" (jstr "")
  let _contentPreview ←
    match articleContent with
    | JVal.str s =>
      Except.ok (if s.length > 300 then s.take 300 ++ "..." else s)
    | _ => Except.error "TypeError: can only concatenate str"
  let tk ← pyIterList keyTakeaways
  let takeawaysStr :=
    String.intercalate "\n" ((tk.take 3).map (fun t => "â€¢ " ++ pyStr t))
  pure (headline, takeawaysStr)

/-- `SocialPostAgent.generate_linkedin_posts` (note: no fence extraction —
`json.loads` is applied to the raw response). -/
def generate_linkedin_posts (p : Parser) (blogData : JVal) (_numPosts : Int)
    (_postStyle : String) (resp : LLMResult) : JVal :=
  match linkedinPre blogData with
  | Except.error e => linkedinErrorRecord e
  | Except.ok (headline, takeawaysStr) =>
    match resp with
    | LLMResult.fault e => linkedinErrorRecord e
    | LLMResult.ok content =>
      match p content.data with
      | none => linkedinFallback content
      | some result =>
        match result with
        | JVal.obj fs =>
          if pyTruthy ((lookupKey fs "linkedin_posts").getD JVal.null) then JVal.obj fs
          else JVal.obj (setKey fs "linkedin_posts"
                 (JVal.arr [defaultLinkedinPost headline takeawaysStr]))
        | _ => linkedinErrorRecord "AttributeError: object has no attribute get"

/-- Error record of `generate_twitter_posts` (`str(e)[:200]` in the tweet). -/
def twitterErrorRecord (e : String) : JVal :=
  JVal.obj [
    ("twitter_posts", JVal.arr [JVal.obj [
      ("tweet_content", jstr ("Error generating Twitter content: " ++ e.take 200)),
      ("character_count", JVal.num 0),
      ("post_type", jstr "error"),
      ("hashtags", JVal.arr [jstr "#error"]),
      ("engagement_elements", JVal.arr []),
      ("thread_position", JVal.null),
      ("retweet_potential", jstr "none")]]),
    ("thread_posts", JVal.arr []),
    ("posting_strategy", jstr "Fix configuration and retry"),
    ("error", jstr e)]

/-- Input reads of `generate_twitter_posts` before the model call: the
`", ".join` over the first five takeaways raises on non-string elements. -/
def twitterPre (blogData : JVal) : Except String (JVal × List JVal) := do
  let headline ← pyGet blogData "headline" (jstr "Industry Insights")
  let keyTakeaways ← pyGet blogData "key_takeaways" (JVal.arr [])
  let tk ← pyIterList keyTakeaways
  let _joined ← pyJoinStrs ", " (tk.take 5)
  pure (headline, tk)

/-- One fallback tweet from a takeaway (`takeaway[:200]`, ellipsis if
truncated). -/
def twitterFallbackTweet (t : JVal) : Except String JVal :=
  match t with
  | JVal.str s =>
    let tweet := "ðŸ’¡ " ++ s.take 200
      ++ (if s.length > 200 then "..." else "") ++ "\n\n#insights #business"
    Except.ok (JVal.obj [
      ("tweet_content", jstr tweet),
      ("character_count", JVal.num tweet.length),
      ("post_type", jstr "single_tweet"),
      ("hashtags", JVal.arr [jstr "#insights", jstr "#business"]),
      ("engagement_elements", JVal.arr [jstr "emoji"]),
      ("thread_position", JVal.null),
      ("retweet_potential", jstr "medium")])
  | _ => Except.error "TypeError: object is not subscriptable"

/-- Effectful map over a list of values (a Python `for` building a list,
propagating the first raised error). -/
def mapExcept (f : JVal → Except String JVal) : List JVal → Except String (List JVal)
  | [] => Except.ok []
  | x :: xs => do
    let r ← f x
    let rs ← mapExcept f xs
    pure (r :: rs)

/-- Parse-failure fallback of `generate_twitter_posts`: basic tweets from the
first three takeaways. -/
def twitterFallback (tk : List JVal) : Except String JVal := do
  let tweets ← mapExcept twitterFallbackTweet (tk.take 3)
  pure (JVal.obj [
    ("twitter_posts", JVal.arr tweets),
    ("thread_posts", JVal.arr []),
    ("posting_strategy", jstr "Manual review recommended - parsing issue occurred"),
    ("parsing_note", jstr "Fallback content generated")])

/-- `x[:n]` for sliceable values. -/
def pySliceTo (n : Nat) (v : JVal) : Except String JVal :=
  match v with
  | JVal.str s => Except.ok (jstr (s.take n))
  | JVal.arr xs => Except.ok (JVal.arr (xs.take n))
  | _ => Except.error "TypeError: object is not subscriptable"

/-- The backfill tweet used when a parsed response lacks `twitter_posts`
(`headline[:100]` interpolated). -/
def defaultTweet (h100 : JVal) : JVal :=
  JVal.obj [
    ("tweet_content", jstr ("ðŸ§µ New post: " ++ pyStr h100 ++ "... \n\nKey insights inside ðŸ‘‡\n\n#contentmarketing #business")),
    ("character_count", JVal.num 120),
    ("post_type", jstr "single_tweet"),
    ("hashtags", JVal.arr [jstr "#contentmarketing", jstr "#business"]),
    ("engagement_elements", JVal.arr [jstr "emoji", jstr "call_to_action"]),
    ("thread_position", JVal.null),
    ("retweet_potential", jstr "medium")]

/-- `SocialPostAgent.generate_twitter_posts` (again no fence extraction). -/
def generate_twitter_posts (p : Parser) (blogData : JVal) (_numPosts : Int)
    (_includeThreads : Bool) (resp : LLMResult) : JVal :=
  match twitterPre blogData with
  | Except.error e => twitterErrorRecord e
  | Except.ok (headline, tk) =>
    match resp with
    | LLMResult.fault e => twitterErrorRecord e
    | LLMResult.ok content =>
      match p content.data with
      | none =>
        match twitterFallback tk with
        | Except.ok v => v
        | Except.error e => twitterErrorRecord e
      | some result =>
        match result with
        | JVal.obj fs =>
          if pyTruthy ((lookupKey fs "twitter_posts").getD JVal.null) then JVal.obj fs
          else
            match pySliceTo 100 headline with
            | Except.ok h100 => JVal.obj (setKey fs "twitter_posts" (JVal.arr [defaultTweet h100]))
            | Except.error e => twitterErrorRecord e
        | _ => twitterErrorRecord "AttributeError: object has no attribute get"

/- ------------------------------------------------------------------ -/
/- Scheduler Agent (agents/scheduler_agent.py).                        -/
/- ------------------------------------------------------------------ -/

/-- The CSV row built from the fields of a blog-schedule record. -/
def blogRowOf (bfs : List (String × JVal)) : JVal :=
  JVal.obj [
    ("Content_Type", jstr "Blog Post"),
    ("Platform", jstr "Website"),
    ("Publish_Date", (lookupKey bfs "publish_date").getD (jstr "")),
    ("Publish_Time", (lookupKey bfs "publish_time").getD (jstr "")),
    ("Day_of_Week", (lookupKey bfs "day_of_week").getD (jstr "")),
    ("Expected_Engagement", jstr "High"),
    ("Notes", (lookupKey bfs "rationale").getD (jstr ""))]

/-- CSV row for the blog entry (`blog.get` requires a dict). -/
def mkBlogRow (blog : JVal) : Except String JVal :=
  match blog with
  | JVal.obj bfs => Except.ok (blogRowOf bfs)
  | _ => Except.error "AttributeError: object has no attribute get"

/-- The CSV row built from the fields of one social post record (`ctPref` is
`"LinkedIn Post "` or `"Twitter Post "`, the post index interpolated after
it). -/
def socialRowOf (ctPref platform : String) (pfs : List (String × JVal)) : JVal :=
  JVal.obj [
    ("Content_Type", jstr (ctPref ++ pyStr ((lookupKey pfs "post_index").getD (jstr "")))),
    ("Platform", jstr platform),
    ("Publish_Date", (lookupKey pfs "publish_date").getD (jstr "")),
    ("Publish_Time", (lookupKey pfs "publish_time").getD (jstr "")),
    ("Day_of_Week", (lookupKey pfs "day_of_week").getD (jstr "")),
    ("Expected_Engagement", (lookupKey pfs "expected_engagement").getD (jstr "Medium")),
    ("Notes", (lookupKey pfs "rationale").getD (jstr ""))]

/-- CSV row for one social post. -/
def mkSocialRow (ctPref platform : String) (post : JVal) : Except String JVal :=
  match post with
  | JVal.obj pfs => Except.ok (socialRowOf ctPref platform pfs)
  | _ => Except.error "AttributeError: object has no attribute get"

/-- `SchedulerAgent._generate_csv_data`: one row for a truthy blog schedule,
then one row per LinkedIn entry, then one per Twitter entry. -/
def genCsvData (sd : JVal) : Except String (List JVal) := do
  let blog ← pyGet sd "blog_schedule" JVal.null
  let blogRows ←
    if pyTruthy blog then do
      let r ← mkBlogRow blog
      pure [r]
    else pure ([] : List JVal)
  let lsv ← pyGet sd "linkedin_schedule" (JVal.arr [])
  let ls ← pyIterList lsv
  let lRows ← mapExcept (mkSocialRow "LinkedIn Post " "LinkedIn") ls
  let tsv ← pyGet sd "twitter_schedule" (JVal.arr [])
  let ts ← pyIterList tsv
  let tRows ← mapExcept (mkSocialRow "Twitter Post " "Twitter/X") ts
  pure (blogRows ++ lRows ++ tRows)

/-- The `i`-th fallback LinkedIn entry (days Wednesday=3, Friday=5 after the
start date; `i` ranges over `range(min(num_linkedin, 2))`). -/
def fallbackLinkedinEntry (dates : DateEnv) (i : Nat) : JVal :=
  JVal.obj [
    ("post_index", JVal.num (Int.ofNat i + 1)),
    ("publish_date", jstr (dates.ymd ([3, 5].getD i 0))),
    ("publish_time", jstr "10:00"),
    ("day_of_week", jstr (dates.weekday ([3, 5].getD i 0))),
    ("post_type", jstr "professional"),
    ("rationale", jstr "Business hours for professional audience"),
    ("expected_engagement", jstr "medium")]

/-- The `i`-th fallback Twitter entry (days 2, 4, 6 after the start date;
`i` ranges over `range(min(num_twitter, 3))`). -/
def fallbackTwitterEntry (dates : DateEnv) (i : Nat) : JVal :=
  JVal.obj [
    ("post_index", JVal.num (Int.ofNat i + 1)),
    ("publish_date", jstr (dates.ymd ([2, 4, 6].getD i 0))),
    ("publish_time", jstr "18:00"),
    ("day_of_week", jstr (dates.weekday ([2, 4, 6].getD i 0))),
    ("post_type", jstr "engagement"),
    ("rationale", jstr "Evening hours for higher Twitter engagement"),
    ("expected_engagement", jstr "medium")]

/-- The `blog_schedule` record of the fallback schedule. -/
def fallbackBlogFields (dates : DateEnv) : List (String × JVal) :=
  [("publish_date", jstr (dates.ymd 1)),
   ("publish_time", jstr "09:00"),
   ("day_of_week", jstr "Tuesday"),
   ("rationale", jstr "Tuesday morning for B2B audience engagement"),
   ("preparation_deadline", jstr (dates.ymd 0 ++ " 17:00"))]

/-- The fields of the fallback schedule before `csv_export` is attached. -/
def fallbackScheduleFields (dates : DateEnv) (duration numLinkedin numTwitter : Nat) :
    List (String × JVal) :=
  [("campaign_overview", JVal.obj [
      ("start_date", jstr (dates.ymd 0)),
      ("end_date", jstr (dates.ymd duration)),
      ("total_posts", JVal.num (Int.ofNat (numLinkedin + numTwitter + 1))),
      ("strategy", jstr "Standard weekly distribution - manual optimization recommended")]),
   ("blog_schedule", JVal.obj (fallbackBlogFields dates)),
   ("linkedin_schedule", JVal.arr
      ((List.range (min numLinkedin 2)).map (fallbackLinkedinEntry dates))),
   ("twitter_schedule", JVal.arr
      ((List.range (min numTwitter 3)).map (fallbackTwitterEntry dates))),
   ("optimization_tips", JVal.arr [
      jstr "Post blog content early in the week",
      jstr "Schedule LinkedIn during business hours",
      jstr "Use Twitter for evening engagement"]),
   ("success_metrics", JVal.arr [
      jstr "Engagement rate",
      jstr "Click-through rate",
      jstr "Share count"])]

/-- `SchedulerAgent._generate_fallback_schedule` (the `blog_title` argument
is accepted and unused, exactly as in the source). -/
def generateFallbackSchedule (dates : DateEnv) (duration numLinkedin numTwitter : Nat)
    (_blogTitle : JVal) : Except String JVal := do
  let rows ← genCsvData (JVal.obj (fallbackScheduleFields dates duration numLinkedin numTwitter))
  pure (JVal.obj (setKey (fallbackScheduleFields dates duration numLinkedin numTwitter)
    "csv_export" (JVal.arr rows)))

/-- Error record of `generate_posting_schedule` (note `csv_export` is absent;
`start_date` is formatted from a fresh `datetime.now()`, modelled as day 0 of
the same date environment). -/
def schedErrorRecord (dates : DateEnv) (e : String) : JVal :=
  JVal.obj [
    ("campaign_overview", JVal.obj [
      ("start_date", jstr (dates.ymd 0)),
      ("error", jstr e),
      ("total_posts", JVal.num 0),
      ("strategy", jstr "Manual scheduling required due to error")]),
    ("blog_schedule", JVal.obj []),
    ("linkedin_schedule", JVal.arr []),
    ("twitter_schedule", JVal.arr []),
    ("optimization_tips", JVal.arr [jstr "Check API configuration", jstr "Retry scheduling"]),
    ("success_metrics", JVal.arr [jstr "Manual tracking required"]),
    ("error", jstr e)]

/-- Backfilled `campaign_overview` for parsed schedules lacking one. -/
def defaultOverview (dates : DateEnv) (duration numLinkedin numTwitter : Nat) : JVal :=
  JVal.obj [
    ("start_date", jstr (dates.ymd 0)),
    ("end_date", jstr (dates.ymd duration)),
    ("total_posts", JVal.num (Int.ofNat (numLinkedin + numTwitter + 1))),
    ("strategy", jstr "Balanced cross-platform content distribution")]

/-- Input reads of `generate_posting_schedule` before the model call (chained
`.get`s and two `len` calls, each of which can raise). -/
def schedPre (contentData : JVal) : Except String (JVal × Nat × Nat) := do
  let blogTitle ← pyGet contentData "headline" (jstr "Blog Post")
  let lc ← pyGet contentData "linkedin_content" (JVal.obj [])
  let linkedinPosts ← pyGet lc "linkedin_posts" (JVal.arr [])
  let tc ← pyGet contentData "twitter_content" (JVal.obj [])
  let twitterPosts ← pyGet tc "twitter_posts" (JVal.arr [])
  let numLinkedin ← pyLen linkedinPosts
  let numTwitter ← pyLen twitterPosts
  pure (blogTitle, numLinkedin, numTwitter)

/-- Post-parse validation of the scheduler: backfill a falsy
`campaign_overview`, then attach `csv_export`. -/
def schedEnhance (dates : DateEnv) (duration numLinkedin numTwitter : Nat)
    (result : JVal) : Except String JVal :=
  match result with
  | JVal.obj fs =>
    let fs1 := if pyTruthy ((lookupKey fs "campaign_overview").getD JVal.null) then fs
               else setKey fs "campaign_overview" (defaultOverview dates duration numLinkedin numTwitter)
    do
      let rows ← genCsvData (JVal.obj fs1)
      pure (JVal.obj (setKey fs1 "csv_export" (JVal.arr rows)))
  | _ => Except.error "AttributeError: object has no attribute get"

/-- `SchedulerAgent.generate_posting_schedule`. -/
def generate_posting_schedule (p : Parser) (dates : DateEnv) (contentData : JVal)
    (_targetAudience _tz : String) (campaignDuration : Nat) (resp : LLMResult) : JVal :=
  match schedPre contentData with
  | Except.error e => schedErrorRecord dates e
  | Except.ok (blogTitle, numLinkedin, numTwitter) =>
    match resp with
    | LLMResult.fault e => schedErrorRecord dates e
    | LLMResult.ok content =>
      match p content.data with
      | none =>
        match generateFallbackSchedule dates campaignDuration numLinkedin numTwitter blogTitle with
        | Except.ok v => v
        | Except.error e => schedErrorRecord dates e
      | some result =>
        match schedEnhance dates campaignDuration numLinkedin numTwitter result with
        | Except.ok v => v
        | Except.error e => schedErrorRecord dates e

/- ------------------------------------------------------------------ -/
/- Pipeline Orchestrator (crew/crew.py).                               -/
/- ------------------------------------------------------------------ -/

/-- The structured failure record the orchestrator returns when a stage
check fails: `{"error": "<Stage> failed", "details": <stage result>}`. -/
def errStage (msg : String) (details : JVal) : JVal :=
  JVal.obj [("error", jstr msg), ("details", details)]

/-- The record returned when the pipeline body itself raises (outermost
`except` of `run_complete_pipeline`). -/
def pipelineCrash (dates : DateEnv) (e : String) : JVal :=
  JVal.obj [
    ("error", jstr ("Pipeline execution failed: " ++ e)),
    ("timestamp", jstr dates.nowIso)]

/-- `_run_blog_writing`'s topic selection: read `trending_topics`, fail with
the no-topics record when falsy, else take the first element. -/
def selectTopTopic (topicResults : JVal) : Except String (Option JVal) := do
  let tt ← pyGet topicResults "trending_topics" (JVal.arr [])
  if pyTruthy tt then do
    let top ← pyIndex0 tt
    pure (some top)
  else pure none

/-- `ContentMarketingCrew._run_blog_writing` (its own `try/except` turns any
raised error into `{"error": str(e)}`; the file writes are external). -/
def runBlogWriting (p : Parser) (topicResults : JVal) (wordCount : Int)
    (brandVoice : String) (resp : LLMResult) : JVal :=
  match selectTopTopic topicResults with
  | Except.error e => JVal.obj [("error", jstr e)]
  | Except.ok none =>
    JVal.obj [("error", jstr "No trending topics available for blog writing")]
  | Except.ok (some top) => write_blog_article p top wordCount brandVoice resp

/-- `ContentMarketingCrew._run_social_media_creation`: two agent calls, then
the combined record (the lengths and list concatenation inside
`campaign_summary` can raise into the wrapper's `except`). -/
def runSocialMediaCreation (p : Parser) (blogResults : JVal)
    (lResp tResp : LLMResult) : JVal :=
  let linkedinResults := generate_linkedin_posts p blogResults 2 "professional" lResp
  let twitterResults := generate_twitter_posts p blogResults 3 true tResp
  match (do
    let lp ← pyGet linkedinResults "linkedin_posts" (JVal.arr [])
    let nL ← pyLen lp
    let tp ← pyGet twitterResults "twitter_posts" (JVal.arr [])
    let nT ← pyLen tp
    let ct1 ← pyGet linkedinResults "content_themes" (JVal.arr [])
    let ct2 ← pyGet twitterResults "content_themes" (JVal.arr [])
    let themes ← pyConcat ct1 ct2
    pure (JVal.obj [
      ("linkedin_posts", linkedinResults),
      ("twitter_posts", twitterResults),
      ("campaign_summary", JVal.obj [
        ("total_linkedin_posts", JVal.num (Int.ofNat nL)),
        ("total_twitter_posts", JVal.num (Int.ofNat nT)),
        ("content_themes", themes)])]) : Except String JVal) with
  | Except.ok v => v
  | Except.error e => JVal.obj [("error", jstr e)]

/-- `{**base, k1: v1, k2: v2}`: dict unpacking requires a mapping. -/
def pyKwMerge (base : JVal) (extra : List (String × JVal)) : Except String JVal :=
  match base with
  | JVal.obj fs =>
    Except.ok (JVal.obj (extra.foldl (fun acc kv => setKey acc kv.1 kv.2) fs))
  | _ => Except.error "TypeError: argument must be a mapping"

/-- The `complete_content` record handed to the scheduler: the blog record
merged with the two social sub-records. -/
def pipelineCompleteContent (blogResults socialResults : JVal) : Except String JVal := do
  let li ← pyGet socialResults "linkedin_posts" (JVal.obj [])
  let tw ← pyGet socialResults "twitter_posts" (JVal.obj [])
  pyKwMerge blogResults [("linkedin_content", li), ("twitter_content", tw)]

/-- `ContentMarketingCrew._compile_final_campaign`. -/
def compileFinalCampaign (dates : DateEnv)
    (topicResults blogResults socialResults scheduleResults : JVal) :
    Except String JVal := do
  let li ← pyGet socialResults "linkedin_posts" (JVal.obj [])
  let liPosts ← pyGet li "linkedin_posts" (JVal.arr [])
  let nLi ← pyLen liPosts
  let tw ← pyGet socialResults "twitter_posts" (JVal.obj [])
  let twPosts ← pyGet tw "twitter_posts" (JVal.arr [])
  let nTw ← pyLen twPosts
  let co ← pyGet scheduleResults "campaign_overview" (JVal.obj [])
  let campDur ← pyGet co "end_date" (jstr "Unknown")
  let keyTopics ←
    if pyTruthy topicResults then do
      let tt ← pyGet topicResults "trending_topics" (JVal.arr [])
      pySliceTo 3 tt
    else pure (JVal.arr [])
  let sm ← pyGet scheduleResults "success_metrics" (JVal.arr [])
  pure (JVal.obj [
    ("campaign_metadata", JVal.obj [
      ("generated_at", jstr dates.nowIso),
      ("pipeline_version", jstr "1.0.0"),
      ("status", jstr "completed")]),
    ("topic_research", topicResults),
    ("blog_article", blogResults),
    ("social_media", socialResults),
    ("posting_schedule", scheduleResults),
    ("campaign_summary", JVal.obj [
      ("total_content_pieces", JVal.num (1 + Int.ofNat nLi + Int.ofNat nTw)),
      ("estimated_reach", jstr "Varies by audience size and engagement"),
      ("campaign_duration", campDur),
      ("key_topics", keyTopics),
      ("success_metrics", sm)])])

/-- `ContentMarketingCrew.run_complete_pipeline`: the four stages in
sequence, each guarded by `if not result or 'error' in result` (short-circuit
order preserved: truthiness first, then the `in` test which can itself raise
on non-container results).  The five `LLMResult` oracles are the model's
responses for research, writer, LinkedIn, Twitter and scheduler calls. -/
def runCompletePipeline (p : Parser) (dates : DateEnv) (seedKeywords : List String)
    (industryContext targetAudience : String) (wordCount : Int)
    (brandVoice tz : String) (rResp wResp lResp tResp sResp : LLMResult) : JVal :=
  let topicResults := research_topics p seedKeywords industryContext rResp
  if ¬ pyTruthy topicResults then errStage "Topic research failed" topicResults
  else match pyContainsError topicResults with
  | Except.error e => pipelineCrash dates e
  | Except.ok true => errStage "Topic research failed" topicResults
  | Except.ok false =>
    let blogResults := runBlogWriting p topicResults wordCount brandVoice wResp
    if ¬ pyTruthy blogResults then errStage "Blog writing failed" blogResults
    else match pyContainsError blogResults with
    | Except.error e => pipelineCrash dates e
    | Except.ok true => errStage "Blog writing failed" blogResults
    | Except.ok false =>
      let socialResults := runSocialMediaCreation p blogResults lResp tResp
      if ¬ pyTruthy socialResults then errStage "Social media creation failed" socialResults
      else match pyContainsError socialResults with
      | Except.error e => pipelineCrash dates e
      | Except.ok true => errStage "Social media creation failed" socialResults
      | Except.ok false =>
        match pipelineCompleteContent blogResults socialResults with
        | Except.error e => pipelineCrash dates e
        | Except.ok completeContent =>
          let scheduleResults :=
            generate_posting_schedule p dates completeContent targetAudience tz 7 sResp
          if ¬ pyTruthy scheduleResults then errStage "Scheduling failed" scheduleResults
          else match pyContainsError scheduleResults with
          | Except.error e => pipelineCrash dates e
          | Except.ok true => errStage "Scheduling failed" scheduleResults
          | Except.ok false =>
            match compileFinalCampaign dates topicResults blogResults socialResults scheduleResults with
            | Except.ok campaign => campaign
            | Except.error e => pipelineCrash dates e

/- ------------------------------------------------------------------ -/
/- Observation helpers and declared stage schemas.                     -/
/- ------------------------------------------------------------------ -/

/-- Field access on a record value. -/
def getAt (v : JVal) (k : String) : Option JVal :=
  match v with
  | JVal.obj fs => lookupKey fs k
  | _ => none

/-- Field access projected to a string value. -/
def getStrAt (v : JVal) (k : String) : Option String :=
  match getAt v k with
  | some (JVal.str s) => some s
  | _ => none

/-- Length of the list stored under a key. -/
def listLenAt (v : JVal) (k : String) : Option Nat :=
  match getAt v k with
  | some (JVal.arr xs) => some xs.length
  | _ => none

/-- The keys of a record, in order. -/
def rowKeys (v : JVal) : List String :=
  match v with
  | JVal.obj fs => fs.map Prod.fst
  | _ => []

/-- Does the record contain every field of the schema? -/
def schemaComplete (fields : List String) (v : JVal) : Bool :=
  match v with
  | JVal.obj fs => fields.all (fun k => (lookupKey fs k).isSome)
  | _ => false

/-- Output schema of the research stage, as declared by its prompt's JSON
template. -/
def researchSchema : List String :=
  ["trending_topics", "market_insights", "recommended_focus"]

/-- Output schema of the writer stage. -/
def blogSchema : List String :=
  ["headline", "meta_description", "article_content", "word_count",
   "key_takeaways", "suggested_tags", "reading_time", "call_to_action"]

/-- Output schema of the LinkedIn half of the social stage. -/
def linkedinSchema : List String :=
  ["linkedin_posts", "content_themes", "overall_strategy"]

/-- Output schema of the Twitter half of the social stage. -/
def twitterSchema : List String :=
  ["twitter_posts", "thread_posts", "posting_strategy"]

/-- Output schema of the scheduler stage. -/
def scheduleSchema : List String :=
  ["campaign_overview", "blog_schedule", "linkedin_schedule",
   "twitter_schedule", "optimization_tips", "success_metrics"]

/-- The column set of every CSV export row. -/
def csvColumns : List String :=
  ["Content_Type", "Platform", "Publish_Date", "Publish_Time",
   "Day_of_Week", "Expected_Engagement", "Notes"]

/-- A concrete instantiation of the external date collaborator, used for
concrete runs. -/
def testDates : DateEnv :=
  ⟨fun n => "D" ++ toString n, fun n => "W" ++ toString n, "T0"⟩

/- ------------------------------------------------------------------ -/
/- Shared association-list lemmas.                                     -/
/- ------------------------------------------------------------------ -/

theorem lookupKey_setKey_self (fs : List (String × JVal)) (k : String) (v : JVal) :
    lookupKey (setKey fs k v) k = some v := by
  induction fs with
  | nil => simp [setKey, lookupKey]
  | cons kv rest ih =>
    by_cases h : kv.1 = k
    · simp [setKey, lookupKey, h]
    · simp [setKey, lookupKey, h, ih]

theorem lookupKey_setKey_ne (fs : List (String × JVal)) (k' k : String) (v : JVal)
    (h : k' ≠ k) : lookupKey (setKey fs k' v) k = lookupKey fs k := by
  induction fs with
  | nil => simp only [setKey, lookupKey]; rw [if_neg h]
  | cons kv rest ih =>
    by_cases hk : kv.1 = k'
    · have hne : kv.1 ≠ k := by rw [hk]; exact h
      simp [setKey, lookupKey, hk, hne, h]
    · simp [setKey, lookupKey, hk, ih]

/- ------------------------------------------------------------------ -/
/- Claim C9.                                                           -/
/- ------------------------------------------------------------------ -/

/-- C9: the Extractor (fence location plus parse attempt) is a pure
deterministic function of the input text: applying it twice to the same text
yields identical output both times, with no hidden state — the embedding of
the source has no state to vary, so the two applications are literally the
same value. -/
theorem C9_extractor_idempotent (p : Parser) (c : PyStr) :
    extractJson p c = extractJson p c ∧ extractContent c = extractContent c :=
  ⟨rfl, rfl⟩

/- ------------------------------------------------------------------ -/
/- Claim C3.                                                           -/
/- ------------------------------------------------------------------ -/

/-- Content of the first ```json fenced block, as the code locates it. -/
def jsonBlockContent (c : PyStr) : Option PyStr :=
  match findIdx jsonFence c with
  | none => none
  | some i =>
    (findIdxFrom fenceSeq c (i + 7)).map (fun e => pyStrip ((c.take e).drop (i + 7)))

/-- Content of the first generic fenced block, as the code locates it. -/
def genericBlockContent (c : PyStr) : Option PyStr :=
  match findIdx fenceSeq c with
  | none => none
  | some i =>
    (findIdxFrom fenceSeq c (i + 3)).map (fun e => pyStrip ((c.take e).drop (i + 3)))

/-- Modelled from the spec's words for C3: the content of the *first* fenced
block in the text, of either kind — the block opened by the earliest fence
marker (treated as a ```json block when that marker starts one, generic
otherwise), up to its closing fence. -/
def firstFencedBlockContent (c : PyStr) : Option PyStr :=
  match findIdx fenceSeq c with
  | none => none
  | some i =>
    if listStartsWith jsonFence (c.drop i) then
      (findIdxFrom fenceSeq c (i + 7)).map (fun e => pyStrip ((c.take e).drop (i + 7)))
    else
      (findIdxFrom fenceSeq c (i + 3)).map (fun e => pyStrip ((c.take e).drop (i + 3)))

/-- The text of the C3 counterexample: a generic fenced block with parseable
content followed by a ```json fenced block with different parseable
content. -/
def c3Text : PyStr :=
  "```\n\x7b\"a\": 1\x7d\n```\n```json\n\x7b\"b\": 2\x7d\n```".data

/-- C3 fails as stated: in `c3Text` the first well-formed fenced block is the
generic one and its content parses to the record `{a: 1}`, but the extraction
step returns the record `{b: 2}` parsed from the later ```json block — the
```json marker takes priority over an earlier generic fence, so the result is
not the parse of the first fenced block. -/
theorem C3_fence_priority_counterexample :
    firstFencedBlockContent c3Text = some "\x7b\"a\": 1\x7d".data ∧
    jsonParse "\x7b\"a\": 1\x7d".data = some (JVal.obj [("a", JVal.num 1)]) ∧
    extractJson jsonParse c3Text = Except.ok (JVal.obj [("b", JVal.num 2)]) ∧
    getAt (JVal.obj [("b", JVal.num 2)]) "a" = none ∧
    getAt (JVal.obj [("a", JVal.num 1)]) "a" = some (JVal.num 1) :=
  ⟨rfl, rfl, rfl, rfl, rfl⟩

/-- C3 (amended): for every response text, if the text contains a ```json
fence, the extraction step returns the parse of the content of the *first*
```json block (when that content parses), regardless of surrounding prose;
when no ```json fence occurs anywhere, it returns the parse of the content of
the first generic fenced block (when that content parses).  The ```json kind
takes priority over an earlier generic fence; within the selected kind only
the first block is considered. -/
theorem C3_extractor_fenced_block (p : Parser) (c : PyStr) :
    (∀ m v, jsonBlockContent c = some m → p m = some v →
      extractJson p c = Except.ok v) ∧
    (∀ m v, findIdx jsonFence c = none → genericBlockContent c = some m →
      p m = some v → extractJson p c = Except.ok v) := by
  constructor
  · intro m v hm hp
    cases hj : findIdx jsonFence c with
    | none => simp [jsonBlockContent, hj] at hm
    | some i =>
      cases he : findIdxFrom fenceSeq c (i + 7) with
      | none => simp [jsonBlockContent, hj, he] at hm
      | some e =>
        simp only [jsonBlockContent, hj, he, Option.map_some] at hm
        cases hm
        simp only [extractJson, extractContent, hj, he, hp]
  · intro m v hj hm hp
    cases hg : findIdx fenceSeq c with
    | none => simp [genericBlockContent, hg] at hm
    | some i =>
      cases he : findIdxFrom fenceSeq c (i + 3) with
      | none => simp [genericBlockContent, hg, he] at hm
      | some e =>
        simp only [genericBlockContent, hg, he, Option.map_some] at hm
        cases hm
        simp only [extractJson, extractContent, hj, hg, he, hp]

/-- Witness for C3 on a concrete prose-wrapped fenced response. -/
theorem C3_extractor_fenced_block_witness :
    extractJson jsonParse "pre ```json\n\x7b\"a\": 1\x7d\n``` post".data =
      Except.ok (JVal.obj [("a", JVal.num 1)]) :=
  (C3_extractor_fenced_block jsonParse _).1 _ _ rfl rfl

/- ------------------------------------------------------------------ -/
/- Claim C8.                                                           -/
/- ------------------------------------------------------------------ -/

/-- C8 fails as stated: with an opening ```json marker and no closing fence,
the candidate substring is *not* the text from just after the marker to the
end of the string.  On `"```jsonABCD"` the code slices `content[7:-1]`,
yielding `"ABC"`, while the text after the marker to end-of-string (stripped)
is `"ABCD"`. -/
theorem C8_slice_to_end_counterexample :
    extractContent "```jsonABCD".data = "ABC".data ∧
    pyStrip ("```jsonABCD".data.drop 7) = "ABCD".data ∧
    "ABC".data ≠ "ABCD".data :=
  ⟨rfl, rfl, by decide⟩

/-- C8 (amended): for every response text containing an opening fence marker
with no subsequent closing fence, the candidate substring is the text from
just after the opening marker up to *but excluding the final character* (the
Python slice `content[start:-1]`, since `find` returned `-1`), stripped; and
whenever that candidate fails to parse, the extraction step reports failure
(engaging the agents' fallback paths). -/
theorem C8_unclosed_fence_slice (p : Parser) (c : PyStr) :
    (∀ i, findIdx jsonFence c = some i → findIdxFrom fenceSeq c (i + 7) = none →
      extractContent c = pyStrip ((c.drop (i + 7)).dropLast) ∧
      (p (pyStrip ((c.drop (i + 7)).dropLast)) = none →
        extractJson p c = Except.error c)) ∧
    (∀ i, findIdx jsonFence c = none → findIdx fenceSeq c = some i →
      findIdxFrom fenceSeq c (i + 3) = none →
      extractContent c = pyStrip ((c.drop (i + 3)).dropLast) ∧
      (p (pyStrip ((c.drop (i + 3)).dropLast)) = none →
        extractJson p c = Except.error c)) := by
  constructor
  · intro i hi he
    have hc : extractContent c = pyStrip ((c.drop (i + 7)).dropLast) := by
      simp only [extractContent, hi, he]
    refine ⟨hc, fun hp => ?_⟩
    unfold extractJson
    rw [hc, hp]
  · intro i hj hi he
    have hc : extractContent c = pyStrip ((c.drop (i + 3)).dropLast) := by
      simp only [extractContent, hj, hi, he]
    refine ⟨hc, fun hp => ?_⟩
    unfold extractJson
    rw [hc, hp]

/- ------------------------------------------------------------------ -/
/- Claim C4.                                                           -/
/- ------------------------------------------------------------------ -/

/-- The writer's post-parse validation never touches `word_count`: whatever
integer the parsed record carries under `word_count` is still there, and the
validation succeeds. -/
theorem blogEnhance_word_count (fs : List (String × JVal)) (ttl : JVal) (wc n : Int)
    (h : lookupKey fs "word_count" = some (JVal.num n)) :
    ∃ gs, blogEnhance (JVal.obj fs) ttl wc = Except.ok (JVal.obj gs) ∧
      lookupKey gs "word_count" = some (JVal.num n) := by
  simp only [blogEnhance]
  set fs1 := (if pyTruthy ((lookupKey fs "headline").getD JVal.null) then fs
    else setKey fs "headline" ttl) with hfs1
  set fs2 := (if pyTruthy ((lookupKey fs1 "article_content").getD JVal.null) then fs1
    else setKey fs1 "article_content" (jstr "Content generation failed. Please try again.")) with hfs2
  have e1 : lookupKey fs1 "word_count" = some (JVal.num n) := by
    rw [hfs1]
    split_ifs with _
    · exact h
    · rw [lookupKey_setKey_ne _ _ _ _ (by decide)]; exact h
  have e2 : lookupKey fs2 "word_count" = some (JVal.num n) := by
    rw [hfs2]
    split_ifs with _
    · exact e1
    · rw [lookupKey_setKey_ne _ _ _ _ (by decide)]; exact e1
  by_cases hrt : pyTruthy ((lookupKey fs2 "reading_time").getD JVal.null)
  · refine ⟨fs2, ?_, e2⟩
    rw [if_pos hrt]
  · rw [if_neg hrt]
    refine ⟨setKey fs2 "reading_time"
      (jstr (toString (max 1 (Int.fdiv n 200)) ++ " min read")), ?_, ?_⟩
    · simp only [e2, Option.getD_some]
    · rw [lookupKey_setKey_ne _ _ _ _ (by decide)]; exact e2

/-- C4: for every requested `target_word_count`, the writer embeds
`max(300, min(600, target_word_count))` as the word count in its prompt (the
prompt factors through that clamp, e.g. a request of 700 is prompted as 600),
and for every successfully parsed model response carrying an integer
`word_count` the returned record's `word_count` field is exactly the parsed
value — the stage neither re-clamps nor re-validates it. -/
theorem C4_word_count_clamp_and_passthrough (p : Parser) (tt ta bv anglesStr : String)
    (t : Int) (td : JVal) (pre : JVal × JVal × String) (content : String)
    (fs : List (String × JVal)) (n : Int) :
    (∃ preS postS, blogPrompt tt (max 300 (min 600 t)) ta bv anglesStr =
      preS ++ ("Target word count: " ++ toString (max 300 (min 600 t)) ++ " words")
        ++ postS) ∧
    (writeBlogPre td = Except.ok pre →
      p (extractContent content.data) = some (JVal.obj fs) →
      lookupKey fs "word_count" = some (JVal.num n) →
      getAt (write_blog_article p td t bv (LLMResult.ok content)) "word_count" =
        some (JVal.num n)) := by
  constructor
  · exact ⟨blogPromptPre tt, blogPromptPost ta bv anglesStr (max 300 (min 600 t)), rfl⟩
  · intro hpre hp hwc
    obtain ⟨ttl, taud, angl⟩ := pre
    obtain ⟨gs, hg, hl⟩ := blogEnhance_word_count fs ttl (max 300 (min 600 t)) n hwc
    simp only [write_blog_article, hpre, hp, hg, getAt]
    exact hl

/-- Witness for C4: a request of 700 is prompted as 600, and a parsed
response declaring `word_count` 5000 is returned with 5000 intact. -/
theorem C4_word_count_witness :
    (∃ preS postS, blogPrompt "T" (max 300 (min 600 700)) "aud" "professional" "angles" =
      preS ++ ("Target word count: " ++ toString (max 300 (min 600 (700 : Int))) ++ " words")
        ++ postS) ∧
    max 300 (min 600 (700 : Int)) = 600 ∧
    getAt (write_blog_article jsonParse (JVal.obj []) 700 "professional"
        (LLMResult.ok "\x7b\"word_count\": 5000, \"reading_time\": \"R\"\x7d"))
      "word_count" = some (JVal.num 5000) :=
  ⟨(C4_word_count_clamp_and_passthrough jsonParse "T" "aud" "professional" "angles"
      700 (JVal.obj []) (jstr "Trending Industry Topic", jstr "business professionals",
        "industry insights, practical tips") "x" [] 0).1,
   by decide,
   (C4_word_count_clamp_and_passthrough jsonParse "T" "aud" "professional" "angles"
      700 (JVal.obj []) (jstr "Trending Industry Topic", jstr "business professionals",
        "industry insights, practical tips")
      "\x7b\"word_count\": 5000, \"reading_time\": \"R\"\x7d"
      [("word_count", JVal.num 5000), ("reading_time", jstr "R")] 5000).2 rfl rfl rfl⟩

/- ------------------------------------------------------------------ -/
/- Claim C7.                                                           -/
/- ------------------------------------------------------------------ -/

/-- C7: for every schedule record with a non-empty `blog_schedule`, exactly
two `linkedin_schedule` entries and an empty `twitter_schedule`, the CSV
export is exactly three rows, each with exactly the column set
Content_Type, Platform, Publish_Date, Publish_Time, Day_of_Week,
Expected_Engagement, Notes. -/
theorem C7_csv_rows (sfs b l1 l2 : List (String × JVal)) (hb : b ≠ [])
    (h1 : lookupKey sfs "blog_schedule" = some (JVal.obj b))
    (h2 : lookupKey sfs "linkedin_schedule" = some (JVal.arr [JVal.obj l1, JVal.obj l2]))
    (h3 : lookupKey sfs "twitter_schedule" = some (JVal.arr [])) :
    ∃ rows, genCsvData (JVal.obj sfs) = Except.ok rows ∧
      rows.length = 3 ∧ ∀ r ∈ rows, rowKeys r = csvColumns := by
  have hbt : pyTruthy (JVal.obj b) = true := by
    cases b with
    | nil => exact absurd rfl hb
    | cons x xs => rfl
  refine ⟨[blogRowOf b, socialRowOf "LinkedIn Post " "LinkedIn" l1,
           socialRowOf "LinkedIn Post " "LinkedIn" l2], ?_, rfl, ?_⟩
  · simp only [genCsvData, pyGet, h1, h2, h3, Option.getD_some, hbt, if_true,
      mkBlogRow, pyIterList, mapExcept, mkSocialRow, bind, Except.bind, pure,
      Except.pure]
    rfl
  · intro r hr
    simp only [List.mem_cons, List.not_mem_nil, or_false] at hr
    rcases hr with h | h | h <;> subst h <;> rfl

/-- Witness for C7 on a concrete one-blog, two-LinkedIn, zero-Twitter
schedule. -/
theorem C7_csv_rows_witness :
    ∃ rows, genCsvData (JVal.obj
        [("blog_schedule", JVal.obj [("publish_date", jstr "d")]),
         ("linkedin_schedule", JVal.arr [JVal.obj [], JVal.obj []]),
         ("twitter_schedule", JVal.arr [])]) = Except.ok rows ∧
      rows.length = 3 ∧ ∀ r ∈ rows, rowKeys r = csvColumns :=
  C7_csv_rows _ _ [] [] (List.cons_ne_nil _ _) rfl rfl rfl

/- ------------------------------------------------------------------ -/
/- Claim C10.                                                          -/
/- ------------------------------------------------------------------ -/

/-- CSV row construction succeeds on any list of record-shaped entries,
yielding one row per entry. -/
theorem mapExcept_socialRow_map (ctP pl : String) (f : Nat → JVal)
    (hf : ∀ i, ∃ pfs, f i = JVal.obj pfs) (idxs : List Nat) :
    ∃ rows, mapExcept (mkSocialRow ctP pl) (idxs.map f) = Except.ok rows ∧
      rows.length = idxs.length := by
  induction idxs with
  | nil => exact ⟨[], rfl, rfl⟩
  | cons i rest ih =>
    obtain ⟨pfs, hpfs⟩ := hf i
    obtain ⟨rows, hrows, hlen⟩ := ih
    refine ⟨socialRowOf ctP pl pfs :: rows, ?_, ?_⟩
    · simp only [List.map_cons, mapExcept, hpfs, mkSocialRow, hrows, bind,
        Except.bind, pure, Except.pure]
    · simp [hlen]

/-- The CSV generation always succeeds on the fallback schedule's fields and
yields one blog row plus one row per scheduled social entry. -/
theorem genCsvData_fallback (dates : DateEnv) (duration nl nt : Nat) :
    ∃ rows, genCsvData (JVal.obj (fallbackScheduleFields dates duration nl nt)) =
      Except.ok rows ∧ rows.length = 1 + (min nl 2 + min nt 3) := by
  obtain ⟨lrows, hl, hllen⟩ := mapExcept_socialRow_map "LinkedIn Post " "LinkedIn"
    (fallbackLinkedinEntry dates) (fun i => ⟨_, rfl⟩) (List.range (min nl 2))
  obtain ⟨trows, ht, htlen⟩ := mapExcept_socialRow_map "Twitter Post " "Twitter/X"
    (fallbackTwitterEntry dates) (fun i => ⟨_, rfl⟩) (List.range (min nt 3))
  refine ⟨blogRowOf (fallbackBlogFields dates) :: (lrows ++ trows), ?_, ?_⟩
  · simp only [genCsvData, fallbackScheduleFields, pyGet, pyIterList,
      mkBlogRow, hl, ht, bind, Except.bind, pure, Except.pure]
    simp only [lookupKey, fallbackBlogFields, pyTruthy]
    simp
    rw [hl, ht]
  · simp only [List.length_cons, List.length_append, hllen, htlen,
      List.length_range]
    omega

/-- C10: the scheduler's parse-failure fallback schedules exactly
`min(num_linkedin, 2)` LinkedIn entries and `min(num_twitter, 3)` Twitter
entries, and its `csv_export` holds exactly `1 + min(num_linkedin, 2) +
min(num_twitter, 3)` rows — posts beyond the second LinkedIn or third
Twitter post are absent from the schedule and from the CSV export. -/
theorem C10_fallback_schedule_counts (dates : DateEnv) (duration nl nt : Nat)
    (title : JVal) :
    ∃ sch, generateFallbackSchedule dates duration nl nt title = Except.ok sch ∧
      listLenAt sch "linkedin_schedule" = some (min nl 2) ∧
      listLenAt sch "twitter_schedule" = some (min nt 3) ∧
      listLenAt sch "csv_export" = some (1 + (min nl 2 + min nt 3)) := by
  obtain ⟨rows, hrows, hlen⟩ := genCsvData_fallback dates duration nl nt
  refine ⟨JVal.obj (setKey (fallbackScheduleFields dates duration nl nt)
      "csv_export" (JVal.arr rows)), ?_, ?_, ?_, ?_⟩
  · simp only [generateFallbackSchedule, hrows, bind, Except.bind, pure, Except.pure]
  · simp [listLenAt, getAt, fallbackScheduleFields, setKey, lookupKey]
  · simp [listLenAt, getAt, fallbackScheduleFields, setKey, lookupKey]
  · simp [listLenAt, getAt, fallbackScheduleFields, setKey, lookupKey, hlen]

/- ------------------------------------------------------------------ -/
/- Claim C5.                                                           -/
/- ------------------------------------------------------------------ -/

/-- A research response that parses cleanly but carries zero topic
candidates. -/
def c5Research : String :=
  "\x7b\"trending_topics\": [], \"market_insights\": \"m\"\x7d"

/-- C5 fails as stated: on a research result with no `error` key and an empty
`trending_topics`, the pipeline does halt before the Writer's model call, but
the returned structured failure record names the *Blog writing* stage
(`"Blog writing failed"`, details `"No trending topics available for blog
writing"`), not the Research stage. -/
theorem C5_failing_stage_name_counterexample :
    getAt (research_topics jsonParse ["kw"] "" (LLMResult.ok c5Research)) "error" = none ∧
    getAt (research_topics jsonParse ["kw"] "" (LLMResult.ok c5Research)) "trending_topics" =
      some (JVal.arr []) ∧
    runCompletePipeline jsonParse testDates ["kw"] "" "aud" 500 "professional" "UTC"
        (LLMResult.ok c5Research) (LLMResult.ok "") (LLMResult.ok "")
        (LLMResult.ok "") (LLMResult.ok "") =
      errStage "Blog writing failed"
        (JVal.obj [("error", jstr "No trending topics available for blog writing")]) ∧
    getStrAt (errStage "Blog writing failed"
        (JVal.obj [("error", jstr "No trending topics available for blog writing")]))
      "error" = some "Blog writing failed" ∧
    some "Blog writing failed" ≠ some "Topic research failed" :=
  ⟨rfl, rfl, rfl, rfl, by decide⟩

/-- C5 (amended): for every research result that carries no `error` key, is
truthy, and whose `trending_topics` is absent or falsy (e.g. empty), the
pipeline halts before the Writer stage's model call — the returned record is
the same for every writer/social/scheduler response — but the structured
failure record it returns names the Blog-writing stage:
`{"error": "Blog writing failed", "details": {"error": "No trending topics
available for blog writing"}}`. -/
theorem C5_empty_topics_halt (p : Parser) (dates : DateEnv) (seeds : List String)
    (ind ta : String) (wc : Int) (bv tz : String) (r w l t s : LLMResult) (tv : JVal)
    (h1 : pyTruthy (research_topics p seeds ind r) = true)
    (h2 : pyContainsError (research_topics p seeds ind r) = Except.ok false)
    (h3 : pyGet (research_topics p seeds ind r) "trending_topics" (JVal.arr []) =
      Except.ok tv)
    (h4 : pyTruthy tv = false) :
    runCompletePipeline p dates seeds ind ta wc bv tz r w l t s =
      errStage "Blog writing failed"
        (JVal.obj [("error", jstr "No trending topics available for blog writing")]) := by
  have hbw : runBlogWriting p (research_topics p seeds ind r) wc bv w =
      JVal.obj [("error", jstr "No trending topics available for blog writing")] := by
    simp only [runBlogWriting, selectTopTopic, h3, bind, Except.bind, h4,
      Bool.false_eq_true, if_false, pure, Except.pure]
  simp only [runCompletePipeline, h1, not_true, if_false, h2, hbw]
  simp [pyTruthy, pyContainsError, lookupKey]

/-- Witness for C5: the concrete empty-topics research response halts the
pipeline with the blog-writing failure record even when the writer oracle
would fault. -/
theorem C5_empty_topics_halt_witness :
    runCompletePipeline jsonParse testDates ["kw2"] "" "aud" 500 "professional" "UTC"
        (LLMResult.ok c5Research) (LLMResult.fault "nope") (LLMResult.ok "")
        (LLMResult.ok "") (LLMResult.ok "") =
      errStage "Blog writing failed"
        (JVal.obj [("error", jstr "No trending topics available for blog writing")]) :=
  C5_empty_topics_halt jsonParse testDates ["kw2"] "" "aud" 500 "professional" "UTC"
    _ _ _ _ _ (JVal.arr []) rfl rfl rfl rfl

/- ------------------------------------------------------------------ -/
/- Claim C6.                                                           -/
/- ------------------------------------------------------------------ -/

/-- Concrete cleanly-parsing research response with one topic. -/
def c6Research : String := "\x7b\"trending_topics\": [\x7b\"title\": \"T\"\x7d]\x7d"

/-- Concrete cleanly-parsing writer response. -/
def c6Writer : String :=
  "\x7b\"headline\": \"H\", \"article_content\": \"A\", \"reading_time\": \"5 min read\", \"word_count\": 400\x7d"

/-- Concrete cleanly-parsing LinkedIn response. -/
def c6Linkedin : String :=
  "\x7b\"linkedin_posts\": [\x7b\"a\": 1\x7d], \"content_themes\": []\x7d"

/-- Concrete cleanly-parsing Twitter response. -/
def c6Twitter : String :=
  "\x7b\"twitter_posts\": [\x7b\"b\": 2\x7d], \"content_themes\": []\x7d"

set_option maxRecDepth 10000 in
/-- C6 fails as stated: when the scheduler's model call raises the fault
`"boom"`, the pipeline's top-level record has `error = "Scheduling failed"`
— not the fault description, which only appears under `details.error`. -/
theorem C6_top_level_error_counterexample :
    runCompletePipeline jsonParse testDates ["kw"] "" "aud" 500 "professional" "UTC"
        (LLMResult.ok c6Research) (LLMResult.ok c6Writer) (LLMResult.ok c6Linkedin)
        (LLMResult.ok c6Twitter) (LLMResult.fault "boom") =
      errStage "Scheduling failed" (schedErrorRecord testDates "boom") ∧
    getStrAt (errStage "Scheduling failed" (schedErrorRecord testDates "boom"))
      "error" = some "Scheduling failed" ∧
    some "Scheduling failed" ≠ some "boom" ∧
    getStrAt (schedErrorRecord testDates "boom") "error" = some "boom" :=
  ⟨rfl, rfl, by decide, rfl⟩

/-- C6 (amended): for every pipeline run reaching the scheduler stage whose
model call raises a fault, the pipeline returns
`{"error": "Scheduling failed", "details": <scheduler error record>}`: the
top-level `error` is the fixed stage message, the fault description sits in
the `details` record's `error` field, and the returned record has no
`posting_schedule` key at all (hence none populated from model-produced
scheduling data). -/
theorem C6_scheduler_fault_halt (p : Parser) (dates : DateEnv) (seeds : List String)
    (ind ta : String) (wc : Int) (bv tz : String) (r w l t : LLMResult) (msg : String)
    {cc : JVal} {preS : JVal × Nat × Nat}
    (h1 : pyTruthy (research_topics p seeds ind r) = true)
    (h2 : pyContainsError (research_topics p seeds ind r) = Except.ok false)
    (h3 : pyTruthy (runBlogWriting p (research_topics p seeds ind r) wc bv w) = true)
    (h4 : pyContainsError (runBlogWriting p (research_topics p seeds ind r) wc bv w) =
      Except.ok false)
    (h5 : pyTruthy (runSocialMediaCreation p
      (runBlogWriting p (research_topics p seeds ind r) wc bv w) l t) = true)
    (h6 : pyContainsError (runSocialMediaCreation p
      (runBlogWriting p (research_topics p seeds ind r) wc bv w) l t) = Except.ok false)
    (h7 : pipelineCompleteContent
      (runBlogWriting p (research_topics p seeds ind r) wc bv w)
      (runSocialMediaCreation p
        (runBlogWriting p (research_topics p seeds ind r) wc bv w) l t) = Except.ok cc)
    (h8 : schedPre cc = Except.ok preS) :
    runCompletePipeline p dates seeds ind ta wc bv tz r w l t (LLMResult.fault msg) =
      errStage "Scheduling failed" (schedErrorRecord dates msg) ∧
    getStrAt (errStage "Scheduling failed" (schedErrorRecord dates msg)) "error" =
      some "Scheduling failed" ∧
    getStrAt (schedErrorRecord dates msg) "error" = some msg ∧
    hasKeyJ (errStage "Scheduling failed" (schedErrorRecord dates msg))
      "posting_schedule" = false := by
  have hsched : generate_posting_schedule p dates cc ta tz 7 (LLMResult.fault msg) =
      schedErrorRecord dates msg := by
    obtain ⟨bt, nl, nt⟩ := preS
    simp only [generate_posting_schedule, h8]
  refine ⟨?_, rfl, rfl, rfl⟩
  simp only [runCompletePipeline, h1, not_true, if_false, h2, h3, h4, h5, h6, h7,
    hsched]
  simp [pyTruthy, pyContainsError, lookupKey, schedErrorRecord]

set_option maxRecDepth 10000 in
/-- Witness for C6 on the concrete faulting-scheduler run. -/
theorem C6_scheduler_fault_halt_witness :
    runCompletePipeline jsonParse testDates ["kw"] "" "aud" 500 "professional" "UTC"
        (LLMResult.ok c6Research) (LLMResult.ok c6Writer) (LLMResult.ok c6Linkedin)
        (LLMResult.ok c6Twitter) (LLMResult.fault "kaput") =
      errStage "Scheduling failed" (schedErrorRecord testDates "kaput") ∧
    getStrAt (errStage "Scheduling failed" (schedErrorRecord testDates "kaput"))
      "error" = some "Scheduling failed" ∧
    getStrAt (schedErrorRecord testDates "kaput") "error" = some "kaput" ∧
    hasKeyJ (errStage "Scheduling failed" (schedErrorRecord testDates "kaput"))
      "posting_schedule" = false :=
  C6_scheduler_fault_halt jsonParse testDates ["kw"] "" "aud" 500 "professional" "UTC"
    (LLMResult.ok c6Research) (LLMResult.ok c6Writer) (LLMResult.ok c6Linkedin)
    (LLMResult.ok c6Twitter) "kaput" rfl rfl rfl rfl rfl rfl rfl rfl

/- ------------------------------------------------------------------ -/
/- Claim C2.                                                           -/
/- ------------------------------------------------------------------ -/

/-- C2: whenever a stage's returned record contains an `error` key, the
orchestrator halts, never consumes any later stage's model response, and
returns `{"error": "<Stage> failed", "details": <that stage's output>}`.
Each conjunct covers one stage boundary; the returned record is the same for
every response of the later stages, which captures that those stages are
never invoked. -/
theorem C2_orchestrator_short_circuit (p : Parser) (dates : DateEnv)
    (seeds : List String) (ind ta : String) (wc : Int) (bv tz : String)
    (r w l t s : LLMResult) :
    (pyContainsError (research_topics p seeds ind r) = Except.ok true →
      runCompletePipeline p dates seeds ind ta wc bv tz r w l t s =
        errStage "Topic research failed" (research_topics p seeds ind r)) ∧
    (pyTruthy (research_topics p seeds ind r) = true →
     pyContainsError (research_topics p seeds ind r) = Except.ok false →
     pyContainsError (runBlogWriting p (research_topics p seeds ind r) wc bv w) =
       Except.ok true →
      runCompletePipeline p dates seeds ind ta wc bv tz r w l t s =
        errStage "Blog writing failed"
          (runBlogWriting p (research_topics p seeds ind r) wc bv w)) ∧
    (pyTruthy (research_topics p seeds ind r) = true →
     pyContainsError (research_topics p seeds ind r) = Except.ok false →
     pyTruthy (runBlogWriting p (research_topics p seeds ind r) wc bv w) = true →
     pyContainsError (runBlogWriting p (research_topics p seeds ind r) wc bv w) =
       Except.ok false →
     pyContainsError (runSocialMediaCreation p
       (runBlogWriting p (research_topics p seeds ind r) wc bv w) l t) =
       Except.ok true →
      runCompletePipeline p dates seeds ind ta wc bv tz r w l t s =
        errStage "Social media creation failed"
          (runSocialMediaCreation p
            (runBlogWriting p (research_topics p seeds ind r) wc bv w) l t)) ∧
    (∀ cc, pyTruthy (research_topics p seeds ind r) = true →
     pyContainsError (research_topics p seeds ind r) = Except.ok false →
     pyTruthy (runBlogWriting p (research_topics p seeds ind r) wc bv w) = true →
     pyContainsError (runBlogWriting p (research_topics p seeds ind r) wc bv w) =
       Except.ok false →
     pyTruthy (runSocialMediaCreation p
       (runBlogWriting p (research_topics p seeds ind r) wc bv w) l t) = true →
     pyContainsError (runSocialMediaCreation p
       (runBlogWriting p (research_topics p seeds ind r) wc bv w) l t) =
       Except.ok false →
     pipelineCompleteContent (runBlogWriting p (research_topics p seeds ind r) wc bv w)
       (runSocialMediaCreation p
         (runBlogWriting p (research_topics p seeds ind r) wc bv w) l t) =
       Except.ok cc →
     pyContainsError (generate_posting_schedule p dates cc ta tz 7 s) =
       Except.ok true →
      runCompletePipeline p dates seeds ind ta wc bv tz r w l t s =
        errStage "Scheduling failed" (generate_posting_schedule p dates cc ta tz 7 s)) := by
  refine ⟨?_, ?_, ?_, ?_⟩
  · intro ha
    by_cases htr : pyTruthy (research_topics p seeds ind r)
    · simp only [runCompletePipeline, htr, not_true, if_false, ha]
    · simp [runCompletePipeline, htr]
  · intro h1 h2 hb
    by_cases hbw : pyTruthy (runBlogWriting p (research_topics p seeds ind r) wc bv w)
    · simp only [runCompletePipeline, h1, not_true, if_false, h2, hbw, hb]
    · simp [runCompletePipeline, h1, h2, hbw]
  · intro h1 h2 h3 h4 hs
    by_cases hso : pyTruthy (runSocialMediaCreation p
      (runBlogWriting p (research_topics p seeds ind r) wc bv w) l t)
    · simp only [runCompletePipeline, h1, not_true, if_false, h2, h3, h4, hso, hs]
    · simp [runCompletePipeline, h1, h2, h3, h4, hso]
  · intro cc h1 h2 h3 h4 h5 h6 hcc hsch
    by_cases hsc : pyTruthy (generate_posting_schedule p dates cc ta tz 7 s)
    · simp only [runCompletePipeline, h1, not_true, if_false, h2, h3, h4, h5, h6,
        hcc, hsc, hsch]
    · simp [runCompletePipeline, h1, h2, h3, h4, h5, h6, hcc, hsc]

/-- Witness for C2 at the research boundary: a faulting research call makes
the pipeline return the research failure record, whatever the later oracles
would answer. -/
theorem C2_orchestrator_short_circuit_witness :
    runCompletePipeline jsonParse testDates [] "" "aud" 500 "professional" "UTC"
        (LLMResult.fault "down") (LLMResult.ok "") (LLMResult.ok "")
        (LLMResult.ok "") (LLMResult.ok "") =
      errStage "Topic research failed" (researchErrorRecord "down") :=
  (C2_orchestrator_short_circuit jsonParse testDates [] "" "aud" 500 "professional"
    "UTC" (LLMResult.fault "down") (LLMResult.ok "") (LLMResult.ok "")
    (LLMResult.ok "") (LLMResult.ok "")).1 rfl

/- ------------------------------------------------------------------ -/
/- Claim C1.                                                           -/
/- ------------------------------------------------------------------ -/

/-- C1 fails as stated: the writer's `run` on the *cleanly parseable*
response `"{}"` returns a record with only `headline`, `article_content` and
`reading_time` — `meta_description`, `word_count`, `key_takeaways`,
`suggested_tags` and `call_to_action` are absent, so schema-completeness
does not hold on the cleanly-parsed tier (only selected fields are
backfilled there). -/
theorem C1_schema_complete_counterexample :
    jsonParse "\x7b\x7d".data = some (JVal.obj []) ∧
    write_blog_article jsonParse (JVal.obj []) 500 "professional"
        (LLMResult.ok "\x7b\x7d") =
      JVal.obj [("headline", jstr "Trending Industry Topic"),
                ("article_content", jstr "Content generation failed. Please try again."),
                ("reading_time", jstr "2 min read")] ∧
    schemaComplete blogSchema (write_blog_article jsonParse (JVal.obj []) 500
      "professional" (LLMResult.ok "\x7b\x7d")) = false ∧
    getAt (write_blog_article jsonParse (JVal.obj []) 500 "professional"
      (LLMResult.ok "\x7b\x7d")) "meta_description" = none :=
  ⟨rfl, rfl, rfl, rfl⟩

/-- The Twitter parse-failure fallback, when it succeeds, is
schema-complete. -/
theorem twitterFallback_schema (tk : List JVal) (v : JVal)
    (hv : twitterFallback tk = Except.ok v) :
    schemaComplete twitterSchema v = true := by
  unfold twitterFallback at hv
  cases hm : mapExcept twitterFallbackTweet (tk.take 3) with
  | error e => rw [hm] at hv; simp [bind, Except.bind] at hv
  | ok tweets =>
    rw [hm] at hv
    simp only [bind, Except.bind, pure, Except.pure, Except.ok.injEq] at hv
    rw [← hv]
    rfl

/-- The scheduler's parse-failure fallback, when it succeeds, is
schema-complete. -/
theorem generateFallbackSchedule_schema (dates : DateEnv) (dur nl nt : Nat)
    (title v : JVal)
    (hv : generateFallbackSchedule dates dur nl nt title = Except.ok v) :
    schemaComplete scheduleSchema v = true := by
  unfold generateFallbackSchedule at hv
  cases hg : genCsvData (JVal.obj (fallbackScheduleFields dates dur nl nt)) with
  | error e => rw [hg] at hv; simp [bind, Except.bind] at hv
  | ok rows =>
    rw [hg] at hv
    simp only [bind, Except.bind, pure, Except.pure, Except.ok.injEq] at hv
    rw [← hv]
    rfl

/-- C1 (amended): every Stage Agent's `run` is a total function (the
embedding returns a record on every path), and on the two degraded tiers the
returned record is schema-complete with respect to the stage's declared
(prompt-template) schema: a raised model-call fault yields a schema-complete
record whose `error` field carries the fault description, and a parse failure
yields the schema-complete synthesized fallback.  On the cleanly-parsed tier
the parsed record is passed through with only selected fields backfilled and
may lack schema fields (see the counterexample). -/
theorem C1_run_graceful_degradation (p : Parser) (seeds : List String)
    (ind e content : String) (td blogData contentData : JVal) (t np : Int)
    (bv ps ta tz : String) (it : Bool) (dates : DateEnv) (dur : Nat) :
    (schemaComplete researchSchema
        (research_topics p seeds ind (LLMResult.fault e)) = true ∧
     getAt (research_topics p seeds ind (LLMResult.fault e)) "error" = some (jstr e)) ∧
    (p (extractContent content.data) = none →
      schemaComplete researchSchema
        (research_topics p seeds ind (LLMResult.ok content)) = true) ∧
    (∀ preW, writeBlogPre td = Except.ok preW →
      schemaComplete blogSchema
        (write_blog_article p td t bv (LLMResult.fault e)) = true ∧
      getAt (write_blog_article p td t bv (LLMResult.fault e)) "error" = some (jstr e)) ∧
    (∀ preW, writeBlogPre td = Except.ok preW →
      p (extractContent content.data) = none →
      schemaComplete blogSchema
        (write_blog_article p td t bv (LLMResult.ok content)) = true) ∧
    (∀ preL, linkedinPre blogData = Except.ok preL →
      schemaComplete linkedinSchema
        (generate_linkedin_posts p blogData np ps (LLMResult.fault e)) = true ∧
      getAt (generate_linkedin_posts p blogData np ps (LLMResult.fault e)) "error" =
        some (jstr e)) ∧
    (∀ preL, linkedinPre blogData = Except.ok preL → p content.data = none →
      schemaComplete linkedinSchema
        (generate_linkedin_posts p blogData np ps (LLMResult.ok content)) = true) ∧
    (∀ preT, twitterPre blogData = Except.ok preT →
      schemaComplete twitterSchema
        (generate_twitter_posts p blogData np it (LLMResult.fault e)) = true ∧
      getAt (generate_twitter_posts p blogData np it (LLMResult.fault e)) "error" =
        some (jstr e)) ∧
    (∀ preT, twitterPre blogData = Except.ok preT → p content.data = none →
      schemaComplete twitterSchema
        (generate_twitter_posts p blogData np it (LLMResult.ok content)) = true) ∧
    (∀ preS, schedPre contentData = Except.ok preS →
      schemaComplete scheduleSchema
        (generate_posting_schedule p dates contentData ta tz dur (LLMResult.fault e)) = true ∧
      getAt (generate_posting_schedule p dates contentData ta tz dur (LLMResult.fault e))
        "error" = some (jstr e)) ∧
    (∀ preS, schedPre contentData = Except.ok preS → p content.data = none →
      schemaComplete scheduleSchema
        (generate_posting_schedule p dates contentData ta tz dur (LLMResult.ok content)) =
        true) := by
  refine ⟨⟨rfl, rfl⟩, ?_, ?_, ?_, ?_, ?_, ?_, ?_, ?_, ?_⟩
  · intro hp
    simp only [research_topics, hp]
    cases hcc : containsSeq "AI in Driving Digital Transformation".data content.data
    · simp only [Bool.false_eq_true, if_false]; rfl
    · simp only [if_true]; rfl
  · rintro ⟨ttl, taud, angl⟩ hpre
    simp only [write_blog_article, hpre]
    exact ⟨rfl, rfl⟩
  · rintro ⟨ttl, taud, angl⟩ hpre hp
    simp only [write_blog_article, hpre, hp]
    rfl
  · rintro ⟨hd, tks⟩ hpre
    simp only [generate_linkedin_posts, hpre]
    exact ⟨rfl, rfl⟩
  · rintro ⟨hd, tks⟩ hpre hp
    simp only [generate_linkedin_posts, hpre, hp]
    rfl
  · rintro ⟨hd, tk⟩ hpre
    simp only [generate_twitter_posts, hpre]
    exact ⟨rfl, rfl⟩
  · rintro ⟨hd, tk⟩ hpre hp
    simp only [generate_twitter_posts, hpre, hp]
    cases hfb : twitterFallback tk with
    | error e' => simp only [hfb]; rfl
    | ok v => simp only [hfb]; exact twitterFallback_schema tk v hfb
  · rintro ⟨bt, nl, nt⟩ hpre
    simp only [generate_posting_schedule, hpre]
    exact ⟨rfl, rfl⟩
  · rintro ⟨bt, nl, nt⟩ hpre hp
    simp only [generate_posting_schedule, hpre, hp]
    cases hfb : generateFallbackSchedule dates dur nl nt bt with
    | error e' => simp only [hfb]; rfl
    | ok v => simp only [hfb]; exact generateFallbackSchedule_schema dates dur nl nt bt v hfb

/-- Witness for C1: all ten degraded-tier conclusions at concrete inputs
(fault "boom", unparseable response "not json", empty input records). -/
theorem C1_run_graceful_degradation_witness :
    (schemaComplete researchSchema
        (research_topics jsonParse [] "" (LLMResult.fault "boom")) = true ∧
     getAt (research_topics jsonParse [] "" (LLMResult.fault "boom")) "error" =
       some (jstr "boom")) ∧
    schemaComplete researchSchema
      (research_topics jsonParse [] "" (LLMResult.ok "not json")) = true ∧
    (schemaComplete blogSchema
        (write_blog_article jsonParse (JVal.obj []) 500 "professional"
          (LLMResult.fault "boom")) = true ∧
     getAt (write_blog_article jsonParse (JVal.obj []) 500 "professional"
       (LLMResult.fault "boom")) "error" = some (jstr "boom")) ∧
    schemaComplete blogSchema
      (write_blog_article jsonParse (JVal.obj []) 500 "professional"
        (LLMResult.ok "not json")) = true ∧
    (schemaComplete linkedinSchema
        (generate_linkedin_posts jsonParse (JVal.obj []) 2 "professional"
          (LLMResult.fault "boom")) = true ∧
     getAt (generate_linkedin_posts jsonParse (JVal.obj []) 2 "professional"
       (LLMResult.fault "boom")) "error" = some (jstr "boom")) ∧
    schemaComplete linkedinSchema
      (generate_linkedin_posts jsonParse (JVal.obj []) 2 "professional"
        (LLMResult.ok "not json")) = true ∧
    (schemaComplete twitterSchema
        (generate_twitter_posts jsonParse (JVal.obj []) 3 true
          (LLMResult.fault "boom")) = true ∧
     getAt (generate_twitter_posts jsonParse (JVal.obj []) 3 true
       (LLMResult.fault "boom")) "error" = some (jstr "boom")) ∧
    schemaComplete twitterSchema
      (generate_twitter_posts jsonParse (JVal.obj []) 3 true
        (LLMResult.ok "not json")) = true ∧
    (schemaComplete scheduleSchema
        (generate_posting_schedule jsonParse testDates (JVal.obj []) "aud" "UTC" 7
          (LLMResult.fault "boom")) = true ∧
     getAt (generate_posting_schedule jsonParse testDates (JVal.obj []) "aud" "UTC" 7
       (LLMResult.fault "boom")) "error" = some (jstr "boom")) ∧
    schemaComplete scheduleSchema
      (generate_posting_schedule jsonParse testDates (JVal.obj []) "aud" "UTC" 7
        (LLMResult.ok "not json")) = true := by
  have h := C1_run_graceful_degradation jsonParse [] "" "boom" "not json"
    (JVal.obj []) (JVal.obj []) (JVal.obj []) 500 2 "professional" "professional"
    "aud" "UTC" true testDates 7
  exact ⟨h.1, h.2.1 rfl, h.2.2.1 _ rfl, h.2.2.2.1 _ rfl rfl,
    h.2.2.2.2.1 _ rfl, h.2.2.2.2.2.1 _ rfl rfl,
    h.2.2.2.2.2.2.1 _ rfl, h.2.2.2.2.2.2.2.1 _ rfl rfl,
    h.2.2.2.2.2.2.2.2.1 _ rfl, h.2.2.2.2.2.2.2.2.2 _ rfl rfl⟩

/-- Witness for C8 on the concrete unclosed-fence response. -/
theorem C8_unclosed_fence_slice_witness :
    extractContent "```jsonABCD".data =
      pyStrip (("```jsonABCD".data.drop 7).dropLast) ∧
    extractJson jsonParse "```jsonABCD".data =
      Except.error "```jsonABCD".data := by
  have h := (C8_unclosed_fence_slice jsonParse "```jsonABCD".data).1 0 rfl rfl
  exact ⟨h.1, h.2 rfl⟩

end ContentPipeline
